import Mathlib

/-!
Shallow embedding of `src/google-analytics-mcp/src/index.js`: a small MCP
server exposing Google Analytics 4 report queries as tools.  JavaScript
strings become Lean `String`; a JavaScript value that may be `undefined`
becomes an `Option`; JavaScript truthiness of a string value is modelled
explicitly (`undefined` and the empty string are falsy, every other string
is truthy; arrays are always truthy).  Each tool handler is embedded as a
pure request-assembly function from the parsed arguments and the process
environment to the backend request record, plus a response-wrapping
function mirroring `toToolTextContent`.
-/

namespace GaMcp

/-- Truthiness of a possibly-undefined JavaScript string value:
`undefined` and `""` are falsy. -/
def jsTruthyStr : Option String → Bool
  | some s => s != ""
  | none => false

/-- JavaScript `a || b` on possibly-undefined string values. -/
def jsOrStr (a b : Option String) : Option String :=
  if jsTruthyStr a then a else b

/-- The process environment variables read at startup (`process.env`). -/
structure Env where
  GA4_PROPERTY_ID : Option String
  GA_PROPERTY_ID : Option String

/-- `const propertyId = process.env.GA4_PROPERTY_ID || process.env.GA_PROPERTY_ID;`
the process-wide default property identifier captured at startup. -/
def propertyId (env : Env) : Option String :=
  jsOrStr env.GA4_PROPERTY_ID env.GA_PROPERTY_ID

/-- `const id = overrides?.propertyId || propertyId;` inside `buildProperty`:
the resolved identifier before prefixing. -/
def resolvedId (overridePropertyId dflt : Option String) : Option String :=
  jsOrStr overridePropertyId dflt

/-- `buildProperty`: resolve the identifier and prefix it, or return
`undefined` when the resolved identifier is falsy. -/
def buildProperty (overridePropertyId dflt : Option String) : Option String :=
  match resolvedId overridePropertyId dflt with
  | none => none
  | some id => if id = "" then none else some ("properties/" ++ id)

/-! ## JSON values and `JSON.stringify(obj, null, 2)` -/

mutual
/-- A JSON value (the shape of the backend result object). -/
inductive Json where
  | null : Json
  | bool (b : Bool) : Json
  | num (n : Int) : Json
  | str (s : String) : Json
  | arr (xs : JsonArr) : Json
  | obj (kvs : JsonObj) : Json

/-- A JSON array, as its own list type so that the serializer can recurse
structurally. -/
inductive JsonArr where
  | nil : JsonArr
  | cons (hd : Json) (tl : JsonArr) : JsonArr

/-- A JSON object: an ordered list of key/value pairs (key order is
significant, as in `JSON.stringify`). -/
inductive JsonObj where
  | nil : JsonObj
  | cons (k : String) (v : Json) (tl : JsonObj) : JsonObj
end

/-- Lowercase hexadecimal digit, for `\u00XX` escapes. -/
def hexDigit (n : Nat) : Char :=
  if n < 10 then Char.ofNat (48 + n) else Char.ofNat (87 + n)

/-- Escape one character as `JSON.stringify` does inside a quoted string. -/
def escapeChar (c : Char) : String :=
  if c = '"' then "\\\""
  else if c = '\\' then "\\\\"
  else if c = '\x08' then "\\b"
  else if c = '\x09' then "\\t"
  else if c = '\x0a' then "\\n"
  else if c = '\x0c' then "\\f"
  else if c = '\x0d' then "\\r"
  else if c.toNat < 32 then
    "\\u00" ++ String.mk [hexDigit (c.toNat / 16), hexDigit (c.toNat % 16)]
  else String.mk [c]

/-- Quote a string as a JSON string literal. -/
def quoteJsonString (s : String) : String :=
  "\"" ++ String.join (s.toList.map escapeChar) ++ "\""

/-- The indentation produced by `JSON.stringify(obj, null, 2)` at nesting
depth `d`: `2 * d` spaces. -/
def indentOf (d : Nat) : String :=
  String.mk (List.replicate (2 * d) ' ')

/-- Join already-serialized members, each on its own line with the given
indentation, separated by commas, as `JSON.stringify` does. -/
def sepJoin (ind : String) : List String → String
  | [] => ""
  | [x] => ind ++ x
  | x :: y :: xs => ind ++ x ++ ",\n" ++ sepJoin ind (y :: xs)

mutual
/-- `JSON.stringify(v, null, 2)` at nesting depth `d`. -/
def serializeJson : Nat → Json → String
  | _, .null => "null"
  | _, .bool true => "true"
  | _, .bool false => "false"
  | _, .num n => toString n
  | _, .str s => quoteJsonString s
  | _, .arr .nil => "[]"
  | d, .arr (.cons x xs) =>
      "[\n" ++ sepJoin (indentOf (d + 1)) (serializeArrItems (d + 1) (.cons x xs))
        ++ "\n" ++ indentOf d ++ "]"
  | _, .obj .nil => "\x7b\x7d"
  | d, .obj (.cons k v kvs) =>
      "\x7b\n" ++ sepJoin (indentOf (d + 1)) (serializeObjItems (d + 1) (.cons k v kvs))
        ++ "\n" ++ indentOf d ++ "\x7d"

/-- Serialize each array element at depth `d`. -/
def serializeArrItems : Nat → JsonArr → List String
  | _, .nil => []
  | d, .cons x xs => serializeJson d x :: serializeArrItems d xs

/-- Serialize each object member at depth `d`, key order preserved. -/
def serializeObjItems : Nat → JsonObj → List String
  | _, .nil => []
  | d, .cons k v xs =>
      (quoteJsonString k ++ ": " ++ serializeJson d v) :: serializeObjItems d xs
end

/-- `JSON.stringify(obj, null, 2)`. -/
def jsonStringifyIndent2 (obj : Json) : String :=
  serializeJson 0 obj

/-! ## Request and response shapes -/

/-- One `{startDate, endDate}` date-range record. -/
structure DateRange where
  startDate : String
  endDate : String
deriving DecidableEq, Repr

/-- A `{name: string}` dimension or metric record. -/
structure NameRec where
  name : String
deriving DecidableEq, Repr

/-- `list.map((name) => ({ name }))`: wrap each bare name string. -/
def wrapNames (l : List String) : List NameRec :=
  l.map (fun n => ⟨n⟩)

/-- The argument object of `analyticsDataClient.runReport`. -/
structure RunReportRequest where
  property : Option String
  dateRanges : List DateRange
  dimensions : List NameRec
  metrics : List NameRec
  dimensionFilter : Option Json
  metricFilter : Option Json
  limit : Option Int
  offset : Option Int
  orderBys : Option Json

/-- The argument object of `analyticsDataClient.runRealtimeReport`. -/
structure RunRealtimeRequest where
  property : Option String
  dimensions : List NameRec
  metrics : List NameRec

/-- One `{type: "text", text}` content block of a tool result. -/
structure ContentBlock where
  type : String
  text : String
deriving DecidableEq, Repr

/-- The tool-output envelope `{content: [...]}`. -/
structure ToolResult where
  content : List ContentBlock
deriving DecidableEq, Repr

/-- `toToolTextContent`: one text block holding the 2-space-indented JSON
serialization of the backend result object. -/
def toToolTextContent (obj : Json) : ToolResult :=
  ⟨[⟨"text", jsonStringifyIndent2 obj⟩]⟩

/-! ## Tool argument shapes (after zod parsing)

zod note: every optional-with-default field in this source is written
`.default(v).optional()`; the outer `optional` accepts `undefined` before
the inner default fires, so an absent field parses to `undefined` and the
handler body supplies the default (`args.x || v` or a destructuring
default).  An absent field is therefore `none` here. -/

/-- Parsed arguments of `query_analytics`. -/
structure QueryAnalyticsArgs where
  propertyId : Option String
  dateRanges : List DateRange
  dimensions : Option (List String)
  metrics : List String
  dimensionFilter : Option Json
  metricFilter : Option Json
  limit : Option Int
  offset : Option Int
  orderBys : Option Json

/-- The zod schema constraints of `query_analytics` beyond field typing:
`dateRanges` nonempty, `metrics` nonempty, `limit` positive,
`offset` nonnegative. -/
def queryAnalyticsValid (a : QueryAnalyticsArgs) : Bool :=
  !a.dateRanges.isEmpty && !a.metrics.isEmpty
    && a.limit.all (fun l => 0 < l) && a.offset.all (fun o => 0 ≤ o)

/-- The `runReport` request assembled by the `query_analytics` handler. -/
def query_analytics_request (env : Env) (a : QueryAnalyticsArgs) : RunReportRequest :=
  { property := buildProperty a.propertyId (propertyId env)
    dateRanges := a.dateRanges
    dimensions := wrapNames (a.dimensions.getD [])
    metrics := wrapNames a.metrics
    dimensionFilter := a.dimensionFilter
    metricFilter := a.metricFilter
    limit := a.limit
    offset := a.offset
    orderBys := a.orderBys }

/-- The `query_analytics` tool as invoked by the server: schema validation
first; the handler runs (and a backend request exists) only when the input
validates. -/
def query_analytics_invoke (env : Env) (a : QueryAnalyticsArgs) :
    Option RunReportRequest :=
  if queryAnalyticsValid a then some (query_analytics_request env a) else none

/-- The full `query_analytics` handler against a backend function: call
`runReport`, take the first element of the response tuple, wrap it. -/
def query_analytics_run (backend : RunReportRequest → Json × List Json)
    (env : Env) (a : QueryAnalyticsArgs) : ToolResult :=
  toToolTextContent (backend (query_analytics_request env a)).1

/-- Parsed arguments of `get_realtime_data`. -/
structure RealtimeArgs where
  propertyId : Option String
  dimensions : Option (List String)
  metrics : Option (List String)

/-- JavaScript `a || dflt` where `a` is a possibly-undefined array: arrays
(empty ones included) are truthy, so only `undefined` falls to the
default. -/
def jsOrList (a : Option (List String)) (dflt : List String) : List String :=
  match a with
  | some l => l
  | none => dflt

/-- The `runRealtimeReport` request assembled by the `get_realtime_data`
handler. -/
def get_realtime_data_request (env : Env) (a : RealtimeArgs) : RunRealtimeRequest :=
  { property := buildProperty a.propertyId (propertyId env)
    dimensions := wrapNames (jsOrList a.dimensions ["country"])
    metrics := wrapNames (jsOrList a.metrics ["activeUsers"]) }

/-- Parsed arguments of the four fixed-preset tools (`get_traffic_sources`,
`get_user_demographics`, `get_page_performance`, `get_conversion_data`). -/
structure PresetArgs where
  propertyId : Option String
  startDate : Option String
  endDate : Option String

/-- The `runReport` request assembled by the `get_traffic_sources` handler
(destructuring defaults `startDate = "7daysAgo"`, `endDate = "today"`). -/
def get_traffic_sources_request (env : Env) (a : PresetArgs) : RunReportRequest :=
  { property := buildProperty a.propertyId (propertyId env)
    dateRanges := [⟨a.startDate.getD "7daysAgo", a.endDate.getD "today"⟩]
    dimensions := [⟨"source"⟩, ⟨"medium"⟩]
    metrics := [⟨"sessions"⟩]
    dimensionFilter := none
    metricFilter := none
    limit := none
    offset := none
    orderBys := none }

/-- The `runReport` request assembled by the `get_user_demographics`
handler. -/
def get_user_demographics_request (env : Env) (a : PresetArgs) : RunReportRequest :=
  { property := buildProperty a.propertyId (propertyId env)
    dateRanges := [⟨a.startDate.getD "7daysAgo", a.endDate.getD "today"⟩]
    dimensions := [⟨"country"⟩, ⟨"city"⟩]
    metrics := [⟨"activeUsers"⟩]
    dimensionFilter := none
    metricFilter := none
    limit := none
    offset := none
    orderBys := none }

/-- The `runReport` request assembled by the `get_page_performance`
handler. -/
def get_page_performance_request (env : Env) (a : PresetArgs) : RunReportRequest :=
  { property := buildProperty a.propertyId (propertyId env)
    dateRanges := [⟨a.startDate.getD "7daysAgo", a.endDate.getD "today"⟩]
    dimensions := [⟨"pagePath"⟩]
    metrics := [⟨"screenPageViews"⟩, ⟨"averageSessionDuration"⟩]
    dimensionFilter := none
    metricFilter := none
    limit := none
    offset := none
    orderBys := none }

/-- The `runReport` request assembled by the `get_conversion_data`
handler. -/
def get_conversion_data_request (env : Env) (a : PresetArgs) : RunReportRequest :=
  { property := buildProperty a.propertyId (propertyId env)
    dateRanges := [⟨a.startDate.getD "7daysAgo", a.endDate.getD "today"⟩]
    dimensions := [⟨"eventName"⟩]
    metrics := [⟨"eventCount"⟩]
    dimensionFilter := none
    metricFilter := none
    limit := none
    offset := none
    orderBys := none }

/-- Parsed arguments of `get_custom_report` (same fields as
`query_analytics`; its zod schema differs only in declaring a default for
`dimensions`, which the outer `optional` bypasses, see above). -/
structure CustomReportArgs where
  propertyId : Option String
  dimensions : Option (List String)
  metrics : List String
  dateRanges : List DateRange
  dimensionFilter : Option Json
  metricFilter : Option Json
  limit : Option Int
  offset : Option Int
  orderBys : Option Json

/-- The zod schema constraints of `get_custom_report` beyond field typing. -/
def customReportValid (a : CustomReportArgs) : Bool :=
  !a.dateRanges.isEmpty && !a.metrics.isEmpty
    && a.limit.all (fun l => 0 < l) && a.offset.all (fun o => 0 ≤ o)

/-- The `runReport` request assembled by the `get_custom_report` handler. -/
def get_custom_report_request (env : Env) (a : CustomReportArgs) : RunReportRequest :=
  { property := buildProperty a.propertyId (propertyId env)
    dateRanges := a.dateRanges
    dimensions := wrapNames (a.dimensions.getD [])
    metrics := wrapNames a.metrics
    dimensionFilter := a.dimensionFilter
    metricFilter := a.metricFilter
    limit := a.limit
    offset := a.offset
    orderBys := a.orderBys }

/-- The `get_custom_report` tool as invoked by the server: schema
validation first. -/
def get_custom_report_invoke (env : Env) (a : CustomReportArgs) :
    Option RunReportRequest :=
  if customReportValid a then some (get_custom_report_request env a) else none

/-- The full `get_custom_report` handler against a backend function. -/
def get_custom_report_run (backend : RunReportRequest → Json × List Json)
    (env : Env) (a : CustomReportArgs) : ToolResult :=
  toToolTextContent (backend (get_custom_report_request env a)).1

end GaMcp

namespace GaMcp

/-! ## Helper lemmas -/

lemma jsTruthyStr_of_ne {s : String} (h : s ≠ "") : jsTruthyStr (some s) = true := by
  simp [jsTruthyStr, h]

lemma resolvedId_override {o : String} (ho : o ≠ "") (d : Option String) :
    resolvedId (some o) d = some o := by
  simp [resolvedId, jsOrStr, jsTruthyStr_of_ne ho]

lemma buildProperty_of_resolved {o d : Option String} {id : String}
    (h : resolvedId o d = some id) (hid : id ≠ "") :
    buildProperty o d = some ("properties/" ++ id) := by
  simp [buildProperty, h, hid]

lemma buildProperty_none_none {o d : Option String} (ho : o = none)
    (hd : d = none) : buildProperty o d = none := by
  subst ho hd
  rfl

lemma wrapNames_ne_nil {l : List String} (h : l ≠ []) : wrapNames l ≠ [] := by
  simpa [wrapNames] using h

lemma ne_nil_of_isEmpty_eq_false {α : Type} {l : List α} (h : l.isEmpty = false) :
    l ≠ [] := by
  intro hn
  subst hn
  simp at h

end GaMcp

namespace GaMcp

/-- Claim C1 counterexample: the empty string is a supplied propertyId
override, yet with the process-wide default "123456" configured the
property sent to the backend is built from the default, not the
override. -/
theorem C1_counterexample :
    (get_traffic_sources_request ⟨some "123456", none⟩ ⟨some "", none, none⟩).property
        = some "properties/123456"
      ∧ resolvedId (some "") (some "123456") = some "123456"
      ∧ ("123456" : String) ≠ "" := by
  refine ⟨by decide, by decide, by decide⟩

/-- Claim C1 (amended): for every tool invocation in which a NON-EMPTY
propertyId override is supplied, the resolved identifier equals the
override — never the process-wide default, whatever the environment. -/
theorem C1_override_nonempty_wins (o : String) (ho : o ≠ "") (env : Env) :
    resolvedId (some o) (propertyId env) = some o
  ∧ buildProperty (some o) (propertyId env) = some ("properties/" ++ o)
  ∧ (∀ a : QueryAnalyticsArgs, a.propertyId = some o →
      (query_analytics_request env a).property = some ("properties/" ++ o))
  ∧ (∀ a : RealtimeArgs, a.propertyId = some o →
      (get_realtime_data_request env a).property = some ("properties/" ++ o))
  ∧ (∀ a : PresetArgs, a.propertyId = some o →
      (get_traffic_sources_request env a).property = some ("properties/" ++ o)
    ∧ (get_user_demographics_request env a).property = some ("properties/" ++ o)
    ∧ (get_page_performance_request env a).property = some ("properties/" ++ o)
    ∧ (get_conversion_data_request env a).property = some ("properties/" ++ o))
  ∧ (∀ a : CustomReportArgs, a.propertyId = some o →
      (get_custom_report_request env a).property = some ("properties/" ++ o)) := by
  have h1 := resolvedId_override ho (propertyId env)
  have h2 := buildProperty_of_resolved h1 ho
  refine ⟨h1, h2, ?_, ?_, ?_, ?_⟩
  · intro a ha
    simp [query_analytics_request, ha, h2]
  · intro a ha
    simp [get_realtime_data_request, ha, h2]
  · intro a ha
    exact ⟨by simp [get_traffic_sources_request, ha, h2],
      by simp [get_user_demographics_request, ha, h2],
      by simp [get_page_performance_request, ha, h2],
      by simp [get_conversion_data_request, ha, h2]⟩
  · intro a ha
    simp [get_custom_report_request, ha, h2]

/-- Witness for C1: override "123" beats configured default "999". -/
theorem C1_witness :
    (query_analytics_request ⟨some "999", none⟩
        ⟨some "123", [⟨"7daysAgo", "today"⟩], none, ["sessions"], none, none,
          none, none, none⟩).property = some "properties/123" := by
  have h := C1_override_nonempty_wins "123" (by decide) ⟨some "999", none⟩
  exact h.2.2.1 _ rfl

end GaMcp

namespace GaMcp

/-- Claim C2 counterexample: `get_realtime_data` invoked with an explicit
empty metrics list (accepted by its schema) assembles a backend request
whose metrics list is empty, because a JavaScript array — even an empty
one — is truthy, so `args.metrics || ["activeUsers"]` keeps `[]`. -/
theorem C2_counterexample :
    (get_realtime_data_request ⟨some "123", none⟩ ⟨none, none, some []⟩).metrics = [] := by
  decide

/-- Claim C2 (amended): every backend request assembled by a tool handler
other than `get_realtime_data` has a non-empty metrics list and a
non-empty date-range list; the realtime request has a non-empty metrics
list whenever the caller does not explicitly supply an empty metrics
list. -/
theorem C2_nonempty_lists (env : Env) :
    (∀ a : QueryAnalyticsArgs, queryAnalyticsValid a = true →
        (query_analytics_request env a).metrics ≠ []
      ∧ (query_analytics_request env a).dateRanges ≠ [])
  ∧ (∀ a : CustomReportArgs, customReportValid a = true →
        (get_custom_report_request env a).metrics ≠ []
      ∧ (get_custom_report_request env a).dateRanges ≠ [])
  ∧ (∀ a : PresetArgs,
        (get_traffic_sources_request env a).metrics ≠ []
      ∧ (get_traffic_sources_request env a).dateRanges ≠ []
      ∧ (get_user_demographics_request env a).metrics ≠ []
      ∧ (get_user_demographics_request env a).dateRanges ≠ []
      ∧ (get_page_performance_request env a).metrics ≠ []
      ∧ (get_page_performance_request env a).dateRanges ≠ []
      ∧ (get_conversion_data_request env a).metrics ≠ []
      ∧ (get_conversion_data_request env a).dateRanges ≠ [])
  ∧ (∀ a : RealtimeArgs, a.metrics ≠ some [] →
        (get_realtime_data_request env a).metrics ≠ []) := by
  refine ⟨?_, ?_, ?_, ?_⟩
  · intro a hv
    simp only [queryAnalyticsValid, Bool.and_eq_true, Bool.not_eq_true'] at hv
    exact ⟨wrapNames_ne_nil (ne_nil_of_isEmpty_eq_false hv.1.1.2), by
      simpa [query_analytics_request] using ne_nil_of_isEmpty_eq_false hv.1.1.1⟩
  · intro a hv
    simp only [customReportValid, Bool.and_eq_true, Bool.not_eq_true'] at hv
    exact ⟨wrapNames_ne_nil (ne_nil_of_isEmpty_eq_false hv.1.1.2), by
      simpa [get_custom_report_request] using ne_nil_of_isEmpty_eq_false hv.1.1.1⟩
  · intro a
    refine ⟨?_, ?_, ?_, ?_, ?_, ?_, ?_, ?_⟩ <;>
      simp [get_traffic_sources_request, get_user_demographics_request,
        get_page_performance_request, get_conversion_data_request]
  · intro a hm
    match h : a.metrics with
    | none => simp [get_realtime_data_request, jsOrList, h, wrapNames]
    | some l =>
        have hl : l ≠ [] := by
          intro hnil
          exact hm (by rw [h, hnil])
        simpa [get_realtime_data_request, jsOrList, h] using wrapNames_ne_nil hl

/-- Witness for C2: a valid `query_analytics` input, a valid
`get_custom_report` input, a preset input and a realtime input without an
explicit empty metrics list all yield non-empty lists. -/
theorem C2_witness :
    ((query_analytics_request ⟨none, none⟩
        ⟨none, [⟨"7daysAgo", "today"⟩], none, ["sessions"], none, none, none,
          none, none⟩).metrics ≠ []
      ∧ (query_analytics_request ⟨none, none⟩
        ⟨none, [⟨"7daysAgo", "today"⟩], none, ["sessions"], none, none, none,
          none, none⟩).dateRanges ≠ [])
  ∧ ((get_realtime_data_request ⟨none, none⟩ ⟨none, none, none⟩).metrics ≠ []) := by
  have h := C2_nonempty_lists ⟨none, none⟩
  exact ⟨h.1 _ (by decide), h.2.2.2 ⟨none, none, none⟩ (by decide)⟩

end GaMcp

namespace GaMcp

/-- Claim C3: calling `query_analytics` or `get_custom_report` with an
empty metrics list fails the zod `.nonempty()` constraint, so the
invocation is rejected before the handler runs and no backend request
exists. -/
theorem C3_empty_metrics_rejected (env : Env) (a : QueryAnalyticsArgs)
    (b : CustomReportArgs) (ha : a.metrics = []) (hb : b.metrics = []) :
    query_analytics_invoke env a = none ∧ get_custom_report_invoke env b = none := by
  constructor
  · simp [query_analytics_invoke, queryAnalyticsValid, ha]
  · simp [get_custom_report_invoke, customReportValid, hb]

/-- Witness for C3 at concrete empty-metrics inputs. -/
theorem C3_witness :
    query_analytics_invoke ⟨none, none⟩
        ⟨none, [⟨"7daysAgo", "today"⟩], none, [], none, none, none, none, none⟩ = none
  ∧ get_custom_report_invoke ⟨none, none⟩
        ⟨none, none, [], [⟨"7daysAgo", "today"⟩], none, none, none, none, none⟩ = none :=
  C3_empty_metrics_rejected ⟨none, none⟩ _ _ rfl rfl

/-- Claim C4: when the backend returns a tuple with first element `R`, the
tool output is exactly one text-type content block whose text is
`JSON.stringify(R, null, 2)`; the remaining tuple elements are discarded
and `R` is not post-processed. -/
theorem C4_output_envelope (backend : RunReportRequest → Json × List Json)
    (env : Env) (a : QueryAnalyticsArgs) (b : CustomReportArgs)
    (R R2 : Json) (rest rest2 : List Json)
    (h : backend (query_analytics_request env a) = (R, rest))
    (h2 : backend (get_custom_report_request env b) = (R2, rest2)) :
    query_analytics_run backend env a = ⟨[⟨"text", jsonStringifyIndent2 R⟩]⟩
  ∧ (query_analytics_run backend env a).content.length = 1
  ∧ get_custom_report_run backend env b = ⟨[⟨"text", jsonStringifyIndent2 R2⟩]⟩ := by
  refine ⟨?_, ?_, ?_⟩ <;>
    simp [query_analytics_run, get_custom_report_run, toToolTextContent, h, h2]

/-- Witness for C4: a backend returning `({rows: ["x"]}, [null, true])`
produces exactly the 2-space-indented serialization of the first tuple
element; the serialization is evaluated to its literal string. -/
theorem C4_witness :
    (query_analytics_run
          (fun _ => (.obj (.cons "rows" (.arr (.cons (.str "x") .nil)) .nil),
            [Json.null, Json.bool true])) ⟨none, none⟩
          ⟨none, [⟨"7daysAgo", "today"⟩], none, ["sessions"], none, none, none,
            none, none⟩
        = ⟨[⟨"text", jsonStringifyIndent2
            (.obj (.cons "rows" (.arr (.cons (.str "x") .nil)) .nil))⟩]⟩
      ∧ (query_analytics_run
          (fun _ => (.obj (.cons "rows" (.arr (.cons (.str "x") .nil)) .nil),
            [Json.null, Json.bool true])) ⟨none, none⟩
          ⟨none, [⟨"7daysAgo", "today"⟩], none, ["sessions"], none, none, none,
            none, none⟩).content.length = 1
      ∧ get_custom_report_run
          (fun _ => (.obj (.cons "rows" (.arr (.cons (.str "x") .nil)) .nil),
            [Json.null, Json.bool true])) ⟨none, none⟩
          ⟨none, none, ["activeUsers"], [⟨"7daysAgo", "today"⟩], none, none,
            none, none, none⟩
        = ⟨[⟨"text", jsonStringifyIndent2
            (.obj (.cons "rows" (.arr (.cons (.str "x") .nil)) .nil))⟩]⟩)
  ∧ jsonStringifyIndent2 (.obj (.cons "rows" (.arr (.cons (.str "x") .nil)) .nil))
      = "\x7b\n  \"rows\": [\n    \"x\"\n  ]\n\x7d" :=
  ⟨C4_output_envelope _ ⟨none, none⟩ _ _ _ _ _ _ rfl rfl, rfl⟩

/-- Claim C5: with no propertyId override supplied and no process-wide
default configured (both environment variables unset), the resolved
property is `undefined` for every tool, yet the handler still runs on
schema-valid input and assembles the backend request (no local error). -/
theorem C5_undefined_property (env : Env) (h4 : env.GA4_PROPERTY_ID = none)
    (hG : env.GA_PROPERTY_ID = none) :
    propertyId env = none
  ∧ buildProperty none (propertyId env) = none
  ∧ (∀ a : QueryAnalyticsArgs, a.propertyId = none →
        (query_analytics_request env a).property = none
      ∧ (queryAnalyticsValid a = true →
          query_analytics_invoke env a = some (query_analytics_request env a)))
  ∧ (∀ a : RealtimeArgs, a.propertyId = none →
        (get_realtime_data_request env a).property = none)
  ∧ (∀ a : PresetArgs, a.propertyId = none →
        (get_traffic_sources_request env a).property = none
      ∧ (get_user_demographics_request env a).property = none
      ∧ (get_page_performance_request env a).property = none
      ∧ (get_conversion_data_request env a).property = none)
  ∧ (∀ a : CustomReportArgs, a.propertyId = none →
        (get_custom_report_request env a).property = none
      ∧ (customReportValid a = true →
          get_custom_report_invoke env a = some (get_custom_report_request env a))) := by
  have hp : propertyId env = none := by
    simp [propertyId, h4, hG, jsOrStr, jsTruthyStr]
  have hb : buildProperty none (propertyId env) = none := buildProperty_none_none rfl hp
  refine ⟨hp, hb, ?_, ?_, ?_, ?_⟩
  · intro a ha
    exact ⟨by simp [query_analytics_request, ha, hb],
      fun hv => by simp [query_analytics_invoke, hv]⟩
  · intro a ha
    simp [get_realtime_data_request, ha, hb]
  · intro a ha
    exact ⟨by simp [get_traffic_sources_request, ha, hb],
      by simp [get_user_demographics_request, ha, hb],
      by simp [get_page_performance_request, ha, hb],
      by simp [get_conversion_data_request, ha, hb]⟩
  · intro a ha
    exact ⟨by simp [get_custom_report_request, ha, hb],
      fun hv => by simp [get_custom_report_invoke, hv]⟩

/-- Witness for C5 at a concrete unset environment and valid input. -/
theorem C5_witness :
    (query_analytics_request ⟨none, none⟩
        ⟨none, [⟨"7daysAgo", "today"⟩], none, ["sessions"], none, none, none,
          none, none⟩).property = none
  ∧ query_analytics_invoke ⟨none, none⟩
        ⟨none, [⟨"7daysAgo", "today"⟩], none, ["sessions"], none, none, none,
          none, none⟩
      = some (query_analytics_request ⟨none, none⟩
        ⟨none, [⟨"7daysAgo", "today"⟩], none, ["sessions"], none, none, none,
          none, none⟩) := by
  have h := C5_undefined_property ⟨none, none⟩ rfl rfl
  have h2 := h.2.2.1 ⟨none, [⟨"7daysAgo", "today"⟩], none, ["sessions"], none,
    none, none, none, none⟩ rfl
  exact ⟨h2.1, h2.2 (by decide)⟩

end GaMcp

namespace GaMcp

/-- Claim C6: `get_realtime_data` with neither dimensions nor metrics
supplied assembles a realtime request with dimensions
`[{name: "country"}]` and metrics `[{name: "activeUsers"}]`. -/
theorem C6_realtime_defaults (env : Env) (p : Option String) :
    (get_realtime_data_request env ⟨p, none, none⟩).dimensions = [⟨"country"⟩]
  ∧ (get_realtime_data_request env ⟨p, none, none⟩).metrics = [⟨"activeUsers"⟩] :=
  ⟨rfl, rfl⟩

/-- Claim C7: each fixed-preset tool called with no startDate and no
endDate sends exactly one date range `{startDate: "7daysAgo",
endDate: "today"}` together with its fixed dimension and metric lists. -/
theorem C7_preset_date_defaults (env : Env) (p : Option String) :
    (get_traffic_sources_request env ⟨p, none, none⟩).dateRanges
        = [⟨"7daysAgo", "today"⟩]
  ∧ (get_traffic_sources_request env ⟨p, none, none⟩).dimensions
        = [⟨"source"⟩, ⟨"medium"⟩]
  ∧ (get_traffic_sources_request env ⟨p, none, none⟩).metrics = [⟨"sessions"⟩]
  ∧ (get_user_demographics_request env ⟨p, none, none⟩).dateRanges
        = [⟨"7daysAgo", "today"⟩]
  ∧ (get_user_demographics_request env ⟨p, none, none⟩).dimensions
        = [⟨"country"⟩, ⟨"city"⟩]
  ∧ (get_user_demographics_request env ⟨p, none, none⟩).metrics
        = [⟨"activeUsers"⟩]
  ∧ (get_page_performance_request env ⟨p, none, none⟩).dateRanges
        = [⟨"7daysAgo", "today"⟩]
  ∧ (get_page_performance_request env ⟨p, none, none⟩).dimensions
        = [⟨"pagePath"⟩]
  ∧ (get_page_performance_request env ⟨p, none, none⟩).metrics
        = [⟨"screenPageViews"⟩, ⟨"averageSessionDuration"⟩]
  ∧ (get_conversion_data_request env ⟨p, none, none⟩).dateRanges
        = [⟨"7daysAgo", "today"⟩]
  ∧ (get_conversion_data_request env ⟨p, none, none⟩).dimensions
        = [⟨"eventName"⟩]
  ∧ (get_conversion_data_request env ⟨p, none, none⟩).metrics
        = [⟨"eventCount"⟩] :=
  ⟨rfl, rfl, rfl, rfl, rfl, rfl, rfl, rfl, rfl, rfl, rfl, rfl⟩

/-- Claim C8: the builder wraps each supplied dimension or metric name
string into exactly one `{name}` record, preserving list length and
order, and the assembled requests carry exactly those wrapped lists. -/
theorem C8_name_wrap (env : Env) (a : QueryAnalyticsArgs) (b : CustomReportArgs)
    (names : List String) (i : Nat) :
    (wrapNames names).length = names.length
  ∧ (wrapNames names)[i]? = names[i]?.map (fun n => ⟨n⟩)
  ∧ (query_analytics_request env a).metrics = wrapNames a.metrics
  ∧ (query_analytics_request env a).dimensions = wrapNames (a.dimensions.getD [])
  ∧ (get_custom_report_request env b).metrics = wrapNames b.metrics
  ∧ (get_custom_report_request env b).dimensions = wrapNames (b.dimensions.getD []) := by
  refine ⟨?_, ?_, rfl, rfl, rfl, rfl⟩
  · simp [wrapNames]
  · simp [wrapNames, List.getElem?_map]

end GaMcp

namespace GaMcp

/-- Claim C9: whenever an identifier `id` is resolved (from override or
default), the property sent to the backend is `"properties/" ++ id`,
never the bare identifier. -/
theorem C9_property_prefixing (env : Env) (id : String) (hid : id ≠ "") :
    (∀ o d, resolvedId o d = some id →
        buildProperty o d = some ("properties/" ++ id))
  ∧ (∀ a : QueryAnalyticsArgs, resolvedId a.propertyId (propertyId env) = some id →
        (query_analytics_request env a).property = some ("properties/" ++ id))
  ∧ (∀ a : RealtimeArgs, resolvedId a.propertyId (propertyId env) = some id →
        (get_realtime_data_request env a).property = some ("properties/" ++ id))
  ∧ (∀ a : PresetArgs, resolvedId a.propertyId (propertyId env) = some id →
        (get_traffic_sources_request env a).property = some ("properties/" ++ id)
      ∧ (get_user_demographics_request env a).property = some ("properties/" ++ id)
      ∧ (get_page_performance_request env a).property = some ("properties/" ++ id)
      ∧ (get_conversion_data_request env a).property = some ("properties/" ++ id))
  ∧ (∀ a : CustomReportArgs, resolvedId a.propertyId (propertyId env) = some id →
        (get_custom_report_request env a).property = some ("properties/" ++ id)) := by
  refine ⟨fun o d h => buildProperty_of_resolved h hid, ?_, ?_, ?_, ?_⟩
  · intro a h
    simpa [query_analytics_request] using buildProperty_of_resolved h hid
  · intro a h
    simpa [get_realtime_data_request] using buildProperty_of_resolved h hid
  · intro a h
    have hb := buildProperty_of_resolved h hid
    exact ⟨by simpa [get_traffic_sources_request] using hb,
      by simpa [get_user_demographics_request] using hb,
      by simpa [get_page_performance_request] using hb,
      by simpa [get_conversion_data_request] using hb⟩
  · intro a h
    simpa [get_custom_report_request] using buildProperty_of_resolved h hid

/-- Witness for C9: identifier "123" resolved from the default env var is
sent prefixed. -/
theorem C9_witness :
    (get_realtime_data_request ⟨some "123", none⟩ ⟨none, none, none⟩).property
      = some "properties/123" := by
  have h := C9_property_prefixing ⟨some "123", none⟩ "123" (by decide)
  exact h.2.2.1 ⟨none, none, none⟩ rfl

/-- Claim C10: an empty-string propertyId override is treated exactly as
an absent override (the check is truthiness): with a configured default
the request carries the prefixed default identifier, and with no default
the property is `undefined`. -/
theorem C10_empty_override_absent (x : Option String) (d : String) (hd : d ≠ "")
    (e : Env) (he : propertyId e = some d)
    (e0 : Env) (h0 : propertyId e0 = none)
    (a : QueryAnalyticsArgs) (ha : a.propertyId = some "") :
    buildProperty (some "") x = buildProperty none x
  ∧ (query_analytics_request e a).property = some ("properties/" ++ d)
  ∧ (query_analytics_request e0 a).property = none := by
  have habs : ∀ y : Option String, resolvedId (some "") y = y := by
    intro y
    simp [resolvedId, jsOrStr, jsTruthyStr]
  refine ⟨?_, ?_, ?_⟩
  · simp [buildProperty, habs, resolvedId, jsOrStr, jsTruthyStr]
  · have : resolvedId a.propertyId (propertyId e) = some d := by
      rw [ha, habs, he]
    simpa [query_analytics_request] using buildProperty_of_resolved this hd
  · simp [query_analytics_request, ha, buildProperty, habs, h0]

/-- Witness for C10: override "" falls back to default "123" when the
default is configured, and to `undefined` when it is not. -/
theorem C10_witness :
    buildProperty (some "") (some "9") = buildProperty none (some "9")
  ∧ (query_analytics_request ⟨some "123", none⟩
        ⟨some "", [⟨"7daysAgo", "today"⟩], none, ["sessions"], none, none, none,
          none, none⟩).property = some "properties/123"
  ∧ (query_analytics_request ⟨none, none⟩
        ⟨some "", [⟨"7daysAgo", "today"⟩], none, ["sessions"], none, none, none,
          none, none⟩).property = none :=
  C10_empty_override_absent (some "9") "123" (by decide) ⟨some "123", none⟩ rfl
    ⟨none, none⟩ rfl _ rfl

end GaMcp
